import Mathlib

/-!
Shallow embedding of `ugpio.c`
(src/axigpio_w_linux_uio/petalinux.2014.4/components/apps/ugpio/ugpio.c),
a user-space UIO interrupt handler for an AXI GPIO peripheral.

The program has three parts:
* `wait_for_interrupt fd gpio_ptr`: blocks on `read(fd, &pending, 4)`,
  reads `GPIO_IRQ_STATUS` and, when non-zero, writes `2` to it, reads
  `GPIO_DATA2_OFFSET` and prints it, then writes the reenable value `1`
  with `write(fd, &reenable, 4)`.  We embed one invocation as a list of
  observable events, parameterised by the outcome of the blocking read
  (bytes transferred and resulting `pending` value) and by a read-only
  register backend `regs : Nat -> Nat` giving the value each volatile
  `gpio_read` returns at a byte offset.  No register is read after being
  written inside one invocation, so a read-only backend plus recorded
  write events is faithful.
* `get_memory_size path`: `fopen`s the sysfs size file (diagnostic and
  `exit(-1)` when that fails), then `fscanf(fp, "0x%08X", &size)` and
  returns `size`.  The return value of `fscanf` is ignored, so when the
  content does not match, the function returns the local variable `size`
  unchanged, i.e. whatever indeterminate value it held; we expose that
  as an explicit `junk` parameter.  The descriptor itself is modelled as
  `Option String` (`none` = cannot be opened).
* `main` startup: opens `/dev/uio0` (failure: diagnostic, return `-1`),
  resolves the region size, `mmap`s it (failure: diagnostic, return
  `-1`).  The outcomes of the two external primitives `open` and `mmap`
  are inputs of the embedding.
-/

namespace Ugpio

/-- Byte offsets of the AXI GPIO registers, from the C `#define`s. -/
def GPIO_MAP_SIZE : Nat := 0x10000

def GPIO_DATA_OFFSET : Nat := 0x00

def GPIO_TRI_OFFSET : Nat := 0x04

def GPIO_DATA2_OFFSET : Nat := 0x08

def GPIO_TRI2_OFFSET : Nat := 0x0C

def GPIO_GLOBAL_IRQ : Nat := 0x11C

def GPIO_IRQ_CONTROL : Nat := 0x128

def GPIO_IRQ_STATUS : Nat := 0x120

/-- Platform page size: `getpagesize()` is 4096 on the Zynq target. -/
def PAGE_SIZE : Nat := 4096

/-- One observable action of `wait_for_interrupt`, in program order:
* `chanRead req got value`  models `read(fd, &pending, sizeof(int))`:
  `req` bytes requested (always 4), `got` bytes actually transferred,
  `value` the resulting contents of `pending`;
* `regRead offset value`    models `gpio_read(gpio_ptr, offset)` returning `value`;
* `regWrite offset value`   models `gpio_write(gpio_ptr, offset, value)`;
* `output value`            models `printf("GPIO_DATA2_OFFSET: 0x%d\n", reg)`,
  carrying the raw register value that is reported;
* `chanWrite req value`     models `write(fd, &reenable, sizeof(int))`:
  `req` bytes requested (always 4) holding `value`. -/
inductive Event where
  | chanRead (req got value : Nat)
  | regRead (offset value : Nat)
  | regWrite (offset value : Nat)
  | output (value : Nat)
  | chanWrite (req value : Nat)
  deriving DecidableEq, Repr

/-- Embedding of `wait_for_interrupt(fd, gpio_ptr)` (ugpio.c lines 94-125) as
the trace of one invocation.  `readGot`/`readValue` are the outcome of the
blocking `read` (bytes transferred, resulting `pending`); `regs` gives the
value each volatile register read returns.  The C code never inspects the
`read` return value nor `pending`; the `#if 0` OCM block is compiled out. -/
def wait_for_interrupt (readGot readValue : Nat) (regs : Nat → Nat) : List Event :=
  let reg := regs GPIO_IRQ_STATUS
  let reg2 := regs GPIO_DATA2_OFFSET
  Event.chanRead 4 readGot readValue
    :: Event.regRead GPIO_IRQ_STATUS reg
    :: ((if reg ≠ 0 then [Event.regWrite GPIO_IRQ_STATUS 2] else [])
        ++ [Event.regRead GPIO_DATA2_OFFSET reg2,
            Event.output reg2,
            Event.chanWrite 4 1])

/-- Event is a register write (to any offset). -/
def isRegWrite : Event → Bool
  | Event.regWrite _ _ => true
  | _ => false

/-- Event is a write to the notification channel. -/
def isChanWrite : Event → Bool
  | Event.chanWrite _ _ => true
  | _ => false

/-- Event is a write to `GPIO_IRQ_STATUS` (the acknowledge) or a write to
the notification channel (the reenable). -/
def isAckOrReenable : Event → Bool
  | Event.regWrite o _ => o == GPIO_IRQ_STATUS
  | Event.chanWrite _ _ => true
  | _ => false

/-- Event is a read of the `GPIO_DATA2_OFFSET` register. -/
def isData2Read : Event → Bool
  | Event.regRead o _ => o == GPIO_DATA2_OFFSET
  | _ => false

/-- Value of one hexadecimal digit, as `fscanf`'s `%X` accepts it. -/
def hexDigitVal (c : Char) : Option Nat :=
  if '0' ≤ c ∧ c ≤ '9' then some (c.toNat - '0'.toNat)
  else if 'a' ≤ c ∧ c ≤ 'f' then some (c.toNat - 'a'.toNat + 10)
  else if 'A' ≤ c ∧ c ≤ 'F' then some (c.toNat - 'A'.toNat + 10)
  else none

/-- Accumulate further hex digits, at most `width` more, stopping at the
first non-digit, as `%08X` does after its first digit. -/
def scanHexAux : List Char → Nat → Nat → Nat
  | [], _, acc => acc
  | _ :: _, 0, acc => acc
  | c :: cs, Nat.succ w, acc =>
    match hexDigitVal c with
    | some d => scanHexAux cs w (16 * acc + d)
    | none => acc

/-- Embedding of `fscanf(size_fp, "0x%08X", &size)` on a descriptor content:
the literal characters `0x` must match, then at least one and at most eight
hexadecimal digits are converted; `none` means the conversion failed and
`size` was not assigned.  (The model covers contents that carry the value
directly after the `0x` literal; it does not model `%X`'s tolerance of
interior whitespace, a sign, or a second `0x` prefix, which no descriptor
of this system produces.) -/
def fscanfHex (s : String) : Option Nat :=
  match s.data with
  | '0' :: 'x' :: c :: cs =>
    match hexDigitVal c with
    | some d => some (scanHexAux cs 7 d)
    | none => none
  | _ => none

/-- Embedding of `get_memory_size(sysfs_path_file)` (ugpio.c lines 127-149).
`file` is the descriptor content, `none` when `fopen` fails, in which case
the program prints a diagnostic and calls `exit(-1)`, modelled as
`Except.error (diagnostic, exit_code)`.  `junk` is the indeterminate value
the uninitialized local `unsigned int size` holds; the code ignores the
result of `fscanf`, so a failed conversion leaves `size` = `junk` and the
function returns it. -/
def get_memory_size (file : Option String) (junk : Nat) : Except (String × Int) Nat :=
  match file with
  | none => Except.error ("unable to open the uio size file\n", -1)
  | some content =>
    match fscanfHex content with
    | some v => Except.ok v
    | none => Except.ok junk

/-- The mapped GPIO region: `gpio_ptr` with its requested length
(`length_in_bytes` of the spec's MappedRegion). -/
structure MappedRegion where
  len : Nat
  deriving DecidableEq, Repr

/-- Outcomes of the external primitives consumed by `main`'s startup:
whether `open("/dev/uio0", O_RDWR)` yields a usable fd (`fd >= 1`), the
content of the sysfs size descriptor (`none` = `fopen` fails), the
indeterminate initial value of `get_memory_size`'s local `size`, and
whether `mmap` returns something other than `MAP_FAILED`. -/
structure StartupEnv where
  openOk : Bool
  sizeFile : Option String
  junk : Nat
  mmapOk : Bool

/-- Embedding of the startup phase of `main` (ugpio.c lines 151-178), up to
the point where the mapped region exists and the interrupt loop would be
entered.  Every failure is `Except.error (diagnostic, exit_code)`; success
carries the `MappedRegion` whose length is the size obtained from
`get_memory_size`, unvalidated. -/
def main_startup (env : StartupEnv) : Except (String × Int) MappedRegion :=
  if !env.openOk then
    Except.error ("Invalid UIO device file:/dev/uio0.\n", -1)
  else
    match get_memory_size env.sizeFile env.junk with
    | Except.error e => Except.error e
    | Except.ok gpio_size =>
      if !env.mmapOk then
        Except.error ("Mmap call failure.\n", -1)
      else
        Except.ok ⟨gpio_size⟩

/-- Result is an error (the process terminated before entering the loop). -/
def isErr : Except (String × Int) MappedRegion → Bool
  | Except.error _ => true
  | Except.ok _ => false

/-- Every error result carries exit code `-1` and a non-empty diagnostic. -/
def failsLoudly : Except (String × Int) MappedRegion → Bool
  | Except.error (d, c) => decide (c = -1) && decide (0 < d.length)
  | Except.ok _ => true

/-- Sum a list of hex digits into the number they denote (big-endian),
the reference value for `fscanfHex` on an all-digit content. -/
def hexVal (ds : List Char) : Nat :=
  ds.foldl (fun a c => 16 * a + (hexDigitVal c).getD 0) 0

theorem scanHexAux_all_digits (cs : List Char) :
    ∀ w acc, cs.length ≤ w → cs.all (fun c => (hexDigitVal c).isSome) = true →
      scanHexAux cs w acc = cs.foldl (fun a c => 16 * a + (hexDigitVal c).getD 0) acc := by
  induction cs with
  | nil =>
    intro w acc _ _
    cases w <;> rfl
  | cons c cs ih =>
    intro w acc hlen hdig
    cases w with
    | zero => simp at hlen
    | succ w =>
      simp only [List.all_cons, Bool.and_eq_true] at hdig
      obtain ⟨d, hd⟩ := Option.isSome_iff_exists.mp hdig.1
      simp only [List.length_cons, Nat.succ_le_succ_iff] at hlen
      simp only [scanHexAux, hd, List.foldl_cons, Option.getD_some]
      exact ih w (16 * acc + d) hlen hdig.2

end Ugpio

namespace Ugpio

/-- C1: in every Handling phase in which an acknowledge occurs (IRQ_STATUS
read non-zero), the subsequence of acknowledge and reenable events of the
`wait_for_interrupt` trace is exactly the `IRQ_STATUS := 2` write followed
by the 4-byte reenable write of `1`: the status-clear strictly precedes the
reenable write, and the reenable write is never issued before it. -/
theorem c1_ack_strictly_before_reenable (b v : Nat) (regs : Nat → Nat)
    (h : regs GPIO_IRQ_STATUS ≠ 0) :
    (wait_for_interrupt b v regs).filter isAckOrReenable
      = [Event.regWrite GPIO_IRQ_STATUS 2, Event.chanWrite 4 1] := by
  simp [wait_for_interrupt, isAckOrReenable, h]

/-- C1 witness: concrete instance with IRQ_STATUS reading 2. -/
theorem c1_ack_strictly_before_reenable_witness :
    (fun _ => 2 : Nat → Nat) GPIO_IRQ_STATUS ≠ 0 ∧
      (wait_for_interrupt 4 1 (fun _ => 2)).filter isAckOrReenable
        = [Event.regWrite GPIO_IRQ_STATUS 2, Event.chanWrite 4 1] :=
  ⟨by decide, c1_ack_strictly_before_reenable 4 1 (fun _ => 2) (by decide)⟩

/-- C2: evaluation of `get_memory_size` at the failing input: content
`hello` does not match the `0x%08X` format (`fscanfHex` fails), yet the
function returns the indeterminate value of the uninitialized `size`
variable (here 7) instead of failing with a diagnostic and a non-zero
exit: the `fscanf` return value is ignored by the code. -/
theorem c2_unparsable_content_returns_junk :
    fscanfHex "hello" = none ∧
      get_memory_size (some "hello") 7 = Except.ok 7 :=
  ⟨rfl, rfl⟩

/-- C3 counterexample: the notification-channel read transfers only 2 of
the 4 requested bytes, yet `wait_for_interrupt` proceeds with the full
Handling phase (status read, DATA2 read, report, reenable write) instead
of failing: the code never inspects the `read` return value. -/
theorem c3_short_read_counterexample :
    wait_for_interrupt 2 1 (fun _ => 0)
      = [Event.chanRead 4 2 1,
         Event.regRead GPIO_IRQ_STATUS 0,
         Event.regRead GPIO_DATA2_OFFSET 0,
         Event.output 0,
         Event.chanWrite 4 1] := by
  decide

/-- C3 amended: a short transfer on the notification channel is not
validated: whatever number of bytes the read reports, the rest of the
trace is identical to that of a full 4-byte read, and in particular the
Handling phase runs to its reenable write. -/
theorem c3_short_read_not_validated (b b' v : Nat) (regs : Nat → Nat) :
    (wait_for_interrupt b v regs).drop 1 = (wait_for_interrupt b' v regs).drop 1
      ∧ Event.chanWrite 4 1 ∈ wait_for_interrupt b v regs := by
  constructor
  · rfl
  · by_cases h : regs GPIO_IRQ_STATUS ≠ 0 <;> simp [wait_for_interrupt, h]

/-- C4: in each Handling phase the register writes of the trace are exactly
`[IRQ_STATUS := 2]` when the IRQ_STATUS read is non-zero, and none at all
when it reads zero (the acknowledge is a no-op). -/
theorem c4_ack_conditional (b v : Nat) (regs : Nat → Nat) :
    (wait_for_interrupt b v regs).filter isRegWrite
      = if regs GPIO_IRQ_STATUS ≠ 0
          then [Event.regWrite GPIO_IRQ_STATUS 2] else [] := by
  by_cases h : regs GPIO_IRQ_STATUS ≠ 0 <;>
    simp [wait_for_interrupt, isRegWrite, h]

/-- C5: in each Handling phase, after the acknowledge portion of the trace
(which contains no DATA2 access), the program reads `GPIO_DATA2_OFFSET`,
reports exactly that value to the output, and then writes the reenable
value 1 to the notification channel; the DATA2 read happens exactly once
in the whole trace. -/
theorem c5_data2_read_report_reenable (b v : Nat) (regs : Nat → Nat) :
    (∃ pre,
        wait_for_interrupt b v regs
          = pre ++ [Event.regRead GPIO_DATA2_OFFSET (regs GPIO_DATA2_OFFSET),
                    Event.output (regs GPIO_DATA2_OFFSET),
                    Event.chanWrite 4 1]
        ∧ pre.all (fun e => !(isData2Read e)) = true)
      ∧ ((wait_for_interrupt b v regs).filter isData2Read).length = 1 := by
  by_cases h : regs GPIO_IRQ_STATUS ≠ 0
  · have h' : regs 0x120 ≠ 0 := h
    refine ⟨⟨[Event.chanRead 4 b v,
              Event.regRead GPIO_IRQ_STATUS (regs GPIO_IRQ_STATUS),
              Event.regWrite GPIO_IRQ_STATUS 2], ?_, ?_⟩, ?_⟩ <;>
      simp [wait_for_interrupt, isData2Read, h', GPIO_IRQ_STATUS, GPIO_DATA2_OFFSET]
  · have h' : regs 0x120 = 0 := not_not.mp h
    refine ⟨⟨[Event.chanRead 4 b v,
              Event.regRead GPIO_IRQ_STATUS (regs GPIO_IRQ_STATUS)], ?_, ?_⟩, ?_⟩ <;>
      simp [wait_for_interrupt, isData2Read, h', GPIO_IRQ_STATUS, GPIO_DATA2_OFFSET]

/-- C6: for every descriptor content of the form `0x` followed by eight
hexadecimal digits, `get_memory_size` returns exactly the integer those
digits denote, regardless of the initial value of the local variable. -/
theorem c6_parses_valid_descriptor (ds : List Char) (junk : Nat)
    (h8 : ds.length = 8) (hdig : ds.all (fun c => (hexDigitVal c).isSome) = true) :
    get_memory_size (some (String.mk ('0' :: 'x' :: ds))) junk
      = Except.ok (hexVal ds) := by
  cases ds with
  | nil => simp at h8
  | cons c cs =>
    simp only [List.all_cons, Bool.and_eq_true] at hdig
    obtain ⟨d, hd⟩ := Option.isSome_iff_exists.mp hdig.1
    simp only [List.length_cons, Nat.succ_inj] at h8
    have hlen : cs.length ≤ 7 := by omega
    simp only [get_memory_size, fscanfHex, String.data, hd, hexVal,
      List.foldl_cons, Option.getD_some, Nat.mul_zero, Nat.zero_add]
    rw [scanHexAux_all_digits cs 7 d hlen hdig.2]

/-- C6 witness: the end-to-end scenario, content `0x00010000` parses to
65536. -/
theorem c6_parses_valid_descriptor_witness :
    get_memory_size (some (String.mk
        ('0' :: 'x' :: ['0', '0', '0', '1', '0', '0', '0', '0']))) 0
      = Except.ok 65536 := by
  rw [c6_parses_valid_descriptor ['0', '0', '0', '1', '0', '0', '0', '0'] 0
    (by decide) (by decide)]
  rfl

/-- C7 counterexample: with descriptor content `0x00000005` and the mapping
primitive succeeding (as Linux `mmap` does for any positive length, rounding
internally), startup produces a `MappedRegion` of length 5, which is not a
positive multiple of the page size, and no failure occurs. -/
theorem c7_no_page_multiple_invariant :
    main_startup ⟨true, some "0x00000005", 0, true⟩ = Except.ok ⟨5⟩
      ∧ ¬(5 % PAGE_SIZE = 0) := by
  constructor
  · rfl
  · decide

/-- C7 amended: the program performs no size validation: whenever the
mapping primitive succeeds, startup produces a region whose length is
exactly the descriptor-derived size, whatever it is; the mapping step
fails (with diagnostic and exit -1) exactly when the mapping primitive
itself reports failure. -/
theorem c7_region_len_is_requested_size (content : String) (junk size : Nat)
    (h : fscanfHex content = some size) :
    main_startup ⟨true, some content, junk, true⟩ = Except.ok ⟨size⟩
      ∧ main_startup ⟨true, some content, junk, false⟩
          = Except.error ("Mmap call failure.\n", -1) := by
  constructor <;> simp [main_startup, get_memory_size, h]

/-- C7 witness: concrete instance at content `0x00000005`. -/
theorem c7_region_len_is_requested_size_witness :
    main_startup ⟨true, some "0x00000005", 0, true⟩ = Except.ok ⟨5⟩
      ∧ main_startup ⟨true, some "0x00000005", 0, false⟩
          = Except.error ("Mmap call failure.\n", -1) :=
  c7_region_len_is_requested_size "0x00000005" 0 5 rfl

/-- C8: startup fails exactly when the notification-channel open fails, the
region-size descriptor cannot be opened, or the mapping fails; and every
failure result carries a non-empty diagnostic and exit code -1 (no startup
failure path terminates silently). -/
theorem c8_startup_failures_loud (env : StartupEnv) :
    isErr (main_startup env)
        = (!env.openOk || env.sizeFile.isNone || !env.mmapOk)
      ∧ failsLoudly (main_startup env) = true := by
  obtain ⟨o, f, j, m⟩ := env
  cases o with
  | false => exact ⟨rfl, rfl⟩
  | true =>
    cases f with
    | none => exact ⟨rfl, rfl⟩
    | some content =>
      cases m <;> cases hf : fscanfHex content <;>
        simp [main_startup, get_memory_size, isErr, failsLoudly, hf] <;> decide

/-- C9: every invocation of `wait_for_interrupt` writes the 4-byte reenable
value 1 to the notification channel exactly once, here stated as: the
channel-write events of the trace are exactly `[chanWrite 4 1]`, for every
register backend, including those where IRQ_STATUS reads zero and no
acknowledge write occurs. -/
theorem c9_reenable_exactly_once (b v : Nat) (regs : Nat → Nat) :
    (wait_for_interrupt b v regs).filter isChanWrite = [Event.chanWrite 4 1] := by
  by_cases h : regs GPIO_IRQ_STATUS ≠ 0 <;>
    simp [wait_for_interrupt, isChanWrite, h]

/-- C10: the behaviour of `wait_for_interrupt` is independent of the
interrupt-count value delivered by the blocking read: for any two count
values, everything after the channel-read event (register reads, register
writes, output, reenable write) is the identical sequence, since `pending`
is never used. -/
theorem c10_pending_value_irrelevant (v v' : Nat) (regs : Nat → Nat) :
    (wait_for_interrupt 4 v regs).drop 1 = (wait_for_interrupt 4 v' regs).drop 1 := by
  rfl

end Ugpio
